import Mathlib

/-!
Verification of the TailingsIQ frontend authorization/session core.

The definitions below are a shallow embedding of
`src/frontend/src/contexts/UserRoleContext.jsx` (the `UserRoleProvider`
permission evaluator and the `AuthProvider` session manager),
`src/frontend/src/api/tailingsIQApi.js` (the axios request/response
interceptors), `src/frontend/src/App.jsx` (the `ProtectedRoute` guard)
and the `useAuth` hook in `src/unnamed/part_000` (its `refreshToken`).
JavaScript object lookups (`PERMISSIONS[p]`, `ROLE_HIERARCHY[r]`, ...) are
embedded as association-list lookups; `null`/`undefined` values are embedded
as `Option`; asynchronous server calls are embedded as explicit
request-outcome parameters (`Except`), since the only effect of a call on
the client state is the handler run on its outcome.
-/

namespace TailingsIQ

/-- `USER_ROLES` from `UserRoleContext.jsx` (enum of the 8 role strings),
as the key/value pairs that `Object.entries` yields, in insertion order. -/
def USER_ROLES : List (String × String) := [
  ("SUPER_ADMIN", "super_admin"),
  ("ADMIN", "admin"),
  ("ENGINEER_OF_RECORD", "engineer_of_record"),
  ("TSF_OPERATOR", "tsf_operator"),
  ("REGULATOR", "regulator"),
  ("MANAGEMENT", "management"),
  ("CONSULTANT", "consultant"),
  ("VIEWER", "viewer")]

/-- The role strings themselves (the values of `USER_ROLES`). -/
def knownRoles : List String := USER_ROLES.map Prod.snd

/-- `ROLE_HIERARCHY` from `UserRoleContext.jsx`: role string to numeric
hierarchy level. -/
def ROLE_HIERARCHY : List (String × Nat) := [
  ("super_admin", 8),
  ("admin", 7),
  ("engineer_of_record", 6),
  ("management", 5),
  ("tsf_operator", 4),
  ("regulator", 3),
  ("consultant", 2),
  ("viewer", 1)]

/-- `ROLE_HIERARCHY[role] || 0`: the level of a role string, defaulting to
0 for a role that is not a key of the table. -/
def roleLevel (role : String) : Nat :=
  (ROLE_HIERARCHY.lookup role).getD 0

/-- `PERMISSIONS` from `UserRoleContext.jsx`: permission name to the list
of roles allowed to exercise it, in source order. -/
def PERMISSIONS : List (String × List String) := [
  ("canAccessAdminPanel", ["super_admin", "admin"]),
  ("canManageUsers", ["super_admin", "admin"]),
  ("canDeleteUsers", ["super_admin"]),
  ("canResetPasswords", ["super_admin", "admin"]),
  ("canUploadDocuments",
    ["super_admin", "admin", "engineer_of_record", "tsf_operator", "management"]),
  ("canDeleteDocuments", ["super_admin", "admin", "engineer_of_record"]),
  ("canViewAllDocuments",
    ["super_admin", "admin", "engineer_of_record", "regulator", "management"]),
  ("canViewMonitoring",
    ["super_admin", "admin", "engineer_of_record", "tsf_operator", "regulator",
     "management", "consultant", "viewer"]),
  ("canEditMonitoring", ["super_admin", "admin", "engineer_of_record", "tsf_operator"]),
  ("canViewCompliance",
    ["super_admin", "admin", "engineer_of_record", "regulator", "management"]),
  ("canEditCompliance", ["super_admin", "admin", "engineer_of_record"]),
  ("canUseAIQuery",
    ["super_admin", "admin", "engineer_of_record", "tsf_operator", "regulator",
     "management", "consultant"]),
  ("canGenerateSyntheticData", ["super_admin", "admin", "engineer_of_record"]),
  ("canViewSyntheticData", ["super_admin", "admin", "engineer_of_record", "tsf_operator"])]

/-- A user as delivered by the backend (`/auth/me`, `/auth/login`):
`facilities_access` is the optional per-user facility allow-list
(`none` embeds the JS `null`/`undefined` absence of the field). -/
structure User where
  id : Nat
  username : String
  role : String
  facilities_access : Option (List Nat)
deriving DecidableEq, Repr

/-- The `useEffect` in `UserRoleProvider` deriving `userRole` from
`currentUser`: `currentUser?.role` truthy sets the role, otherwise the
role is `null` (a JS empty-string role is falsy, hence also `null`). -/
def deriveRole (currentUser : Option User) : Option String :=
  match currentUser with
  | some u => if u.role = "" then none else some u.role
  | none => none

/-- `hasPermission` from `UserRoleContext.jsx`:
`if (!userRole || !PERMISSIONS[permission]) return false;
 return PERMISSIONS[permission].includes(userRole);` -/
def hasPermission (userRole : Option String) (permission : String) : Bool :=
  match userRole, PERMISSIONS.lookup permission with
  | some role, some allowed => allowed.contains role
  | _, _ => false

/-- `hasHigherRoleThan` from `UserRoleContext.jsx`, composed with the
provider's derivation of `roleLevel` for the current role:
`roleLevel > (ROLE_HIERARCHY[otherUserRole] || 0)`. -/
def hasHigherRoleThan (currentRole otherRole : String) : Bool :=
  decide (roleLevel otherRole < roleLevel currentRole)

/-- The `roleNames` table inside `getRoleDisplayName`. -/
def roleNames : List (String × String) := [
  ("super_admin", "Super Administrator"),
  ("admin", "Administrator"),
  ("engineer_of_record", "Engineer of Record"),
  ("tsf_operator", "TSF Operator"),
  ("regulator", "Regulator"),
  ("management", "Management"),
  ("consultant", "Consultant"),
  ("viewer", "Viewer")]

/-- `getRoleDisplayName`: `roleNames[role] || 'Unknown Role'`. -/
def getRoleDisplayName (role : String) : String :=
  (roleNames.lookup role).getD "Unknown Role"

/-- The `roleColors` table inside `getRoleColor`. -/
def roleColors : List (String × String) := [
  ("super_admin", "#d32f2f"),
  ("admin", "#f57c00"),
  ("engineer_of_record", "#006039"),
  ("tsf_operator", "#1976d2"),
  ("regulator", "#7b1fa2"),
  ("management", "#388e3c"),
  ("consultant", "#0288d1"),
  ("viewer", "#616161")]

/-- `getRoleColor`: `roleColors[role] || '#616161'`. -/
def getRoleColor (role : String) : String :=
  (roleColors.lookup role).getD "#616161"

/-- `canAccessFacility` from `UserRoleContext.jsx`:
`if (!currentUser?.facilities_access) return hasPermission('canViewAllDocuments');
 return currentUser.facilities_access.includes(facilityId) ||
        hasPermission('canViewAllDocuments');` -/
def canAccessFacility (currentUser : Option User) (facilityId : Nat) : Bool :=
  match currentUser with
  | none => hasPermission (deriveRole none) "canViewAllDocuments"
  | some u =>
    match u.facilities_access with
    | none => hasPermission (deriveRole (some u)) "canViewAllDocuments"
    | some l =>
        l.contains facilityId || hasPermission (deriveRole (some u)) "canViewAllDocuments"

/-- The facility-access rule as the specification words it (for comparison
with `canAccessFacility`): "true iff the user has no facility restriction
list (unrestricted) OR the facility ID is a member of the restriction list
OR the user holds the canViewAllDocuments permission". -/
def canAccessFacilitySpec (currentUser : Option User) (facilityId : Nat) : Bool :=
  (currentUser.bind User.facilities_access).isNone
  || ((currentUser.bind User.facilities_access).getD []).contains facilityId
  || hasPermission (deriveRole currentUser) "canViewAllDocuments"

/-- An element of the list returned by `getAvailableRoles`:
`{ value, label, color }`. -/
structure RoleOption where
  value : String
  label : String
  color : String
deriving DecidableEq, Repr

/-- `getAvailableRoles` from `UserRoleContext.jsx`, as a function of the
provider's derived `roleLevel`:
`Object.entries(USER_ROLES)
   .filter(([_, v]) => (ROLE_HIERARCHY[v] || 0) <= roleLevel)
   .map(([k, v]) => ({ value: v, label: getRoleDisplayName(v), color: getRoleColor(v) }))` -/
def getAvailableRoles (currentLevel : Nat) : List RoleOption :=
  (USER_ROLES.filter (fun p => roleLevel p.2 ≤ currentLevel)).map
    (fun p => { value := p.2, label := getRoleDisplayName p.2, color := getRoleColor p.2 })

/-- Claim C1: `hasPermission(P)` under role `R` returns true iff `R` is
set, `P` is a key of the `PERMISSIONS` table, and `R` is a member of `P`'s
configured allowed-role list; an unknown permission name or an absent role
always yields false (fail-closed). -/
theorem hasPermission_correct (r : Option String) (p : String) :
    (hasPermission r p = true ↔
      ∃ role allowed, r = some role ∧ PERMISSIONS.lookup p = some allowed ∧ role ∈ allowed)
    ∧ (r = none → hasPermission r p = false)
    ∧ (PERMISSIONS.lookup p = none → hasPermission r p = false) := by
  refine ⟨?_, ?_, ?_⟩
  · cases r with
    | none => simp [hasPermission]
    | some role =>
      cases h : PERMISSIONS.lookup p with
      | none => simp [hasPermission, h]
      | some allowed =>
        simp [hasPermission, h, List.contains, List.elem_eq_mem]
  · rintro rfl; simp [hasPermission]
  · intro h
    cases r <;> simp [hasPermission, h]

/-- Claim C1 witness: concrete evaluation of the fail-closed branch. -/
theorem hasPermission_correct_witness :
    hasPermission (some "super_admin") "noSuchPermission" = false :=
  (hasPermission_correct (some "super_admin") "noSuchPermission").2.2 (by decide)

/-- A concrete user whose role grants no broad-access permission and who
carries no facility restriction list. -/
def viewerNoFacilities : User :=
  { id := 2, username := "viewer1", role := "viewer", facilities_access := none }

/-- Claim C2 counterexample: for a viewer with no facility restriction
list, the code denies access to facility 1 (it falls back to the
`canViewAllDocuments` check, which a viewer fails), while the claimed rule
— absence of a restriction list by itself grants access — would allow it. -/
theorem canAccessFacility_claim_counterexample :
    canAccessFacility (some viewerNoFacilities) 1 = false
    ∧ canAccessFacilitySpec (some viewerNoFacilities) 1 = true := by decide

/-- Claim C2 amended: `canAccessFacility(f)` returns true iff `f` is a
member of the user's restriction list (when one exists) or the user holds
`canViewAllDocuments`; when the restriction list is absent, access is
granted exactly when the user holds `canViewAllDocuments`. -/
theorem canAccessFacility_amended (cu : Option User) (f : Nat) :
    canAccessFacility cu f = true ↔
      ((∃ u l, cu = some u ∧ u.facilities_access = some l ∧ f ∈ l)
       ∨ hasPermission (deriveRole cu) "canViewAllDocuments" = true) := by
  cases cu with
  | none => simp [canAccessFacility]
  | some u =>
    cases h : u.facilities_access with
    | none => simp [canAccessFacility, h]
    | some l => simp [canAccessFacility, h, List.contains, List.elem_eq_mem]

/-- Claim C3: `getAvailableRoles()` under a current role of level `L`
returns exactly the known roles of level at most `L`, paired with their
display label and color; its size is monotonically non-decreasing in `L`;
at level 8 (`super_admin`) it lists all 8 roles; at level 0 (absent or
unknown role) it is empty. -/
theorem getAvailableRoles_correct :
    (∀ L opt, opt ∈ getAvailableRoles L ↔
       ∃ kv, kv ∈ USER_ROLES ∧ roleLevel kv.2 ≤ L
         ∧ opt = { value := kv.2, label := getRoleDisplayName kv.2,
                   color := getRoleColor kv.2 })
    ∧ (∀ L1 L2, L1 ≤ L2 → (getAvailableRoles L1).length ≤ (getAvailableRoles L2).length)
    ∧ ((getAvailableRoles (roleLevel "super_admin")).map RoleOption.value = knownRoles
       ∧ (getAvailableRoles (roleLevel "super_admin")).length = 8)
    ∧ getAvailableRoles 0 = [] := by
  refine ⟨?_, ?_, by decide, by decide⟩
  · intro L opt
    simp only [getAvailableRoles, List.mem_map, List.mem_filter, decide_eq_true_eq]
    constructor
    · rintro ⟨kv, ⟨hmem, hle⟩, rfl⟩
      exact ⟨kv, hmem, hle, rfl⟩
    · rintro ⟨kv, hmem, hle, rfl⟩
      exact ⟨kv, ⟨hmem, hle⟩, rfl⟩
  · intro L1 L2 h
    simp only [getAvailableRoles, List.length_map]
    refine List.Sublist.length_le (List.monotone_filter_right _ ?_)
    intro a ha
    simp only [decide_eq_true_eq] at ha ⊢
    exact le_trans ha h

/-- Claim C3 witness: the monotonicity conjunct at levels 3 and 5. -/
theorem getAvailableRoles_correct_witness :
    (getAvailableRoles 3).length ≤ (getAvailableRoles 5).length :=
  getAvailableRoles_correct.2.1 3 5 (by decide)

/-- Claim C4: `hasHigherRoleThan` under current role `R1` applied to `R2`
is true iff `R1`'s hierarchy level strictly exceeds `R2`'s (an unknown
role having level 0); on the 8 known roles it is a strict total order
(asymmetric, transitive, total on distinct roles) consistent with the
fixed levels 8 down to 1, and it is irreflexive on every role string. -/
theorem hasHigherRoleThan_strict_order :
    (∀ r1 r2 : String, hasHigherRoleThan r1 r2 = true ↔ roleLevel r2 < roleLevel r1)
    ∧ (∀ r : String, hasHigherRoleThan r r = false)
    ∧ (∀ r1 ∈ knownRoles, ∀ r2 ∈ knownRoles, r1 ≠ r2 →
        (hasHigherRoleThan r1 r2 = true ∨ hasHigherRoleThan r2 r1 = true))
    ∧ (∀ r1 ∈ knownRoles, ∀ r2 ∈ knownRoles,
        hasHigherRoleThan r1 r2 = true → hasHigherRoleThan r2 r1 = false)
    ∧ (∀ r1 ∈ knownRoles, ∀ r2 ∈ knownRoles, ∀ r3 ∈ knownRoles,
        hasHigherRoleThan r1 r2 = true → hasHigherRoleThan r2 r3 = true →
          hasHigherRoleThan r1 r3 = true)
    ∧ (roleLevel "super_admin" = 8 ∧ roleLevel "admin" = 7
       ∧ roleLevel "engineer_of_record" = 6 ∧ roleLevel "management" = 5
       ∧ roleLevel "tsf_operator" = 4 ∧ roleLevel "regulator" = 3
       ∧ roleLevel "consultant" = 2 ∧ roleLevel "viewer" = 1) := by
  refine ⟨?_, ?_, by decide, by decide, by decide, by decide⟩
  · intro r1 r2
    simp [hasHigherRoleThan]
  · intro r
    simp [hasHigherRoleThan]

/-- Claim C4 witness: totality conjunct at two concrete distinct roles. -/
theorem hasHigherRoleThan_strict_order_witness :
    hasHigherRoleThan "super_admin" "admin" = true
    ∨ hasHigherRoleThan "admin" "super_admin" = true :=
  hasHigherRoleThan_strict_order.2.2.1 "super_admin" (by decide) "admin" (by decide)
    (by decide)

/-- The `AuthProvider` state from `AuthContext`: `storedToken` embeds the
`localStorage` entry under `tailingsiq_token`, `token` and `currentUser`
the React state, `apiAuthHeader` the axios default `Authorization` header. -/
structure SessionState where
  storedToken : Option String
  token : Option String
  currentUser : Option User
  loading : Bool
  apiAuthHeader : Option String
deriving DecidableEq, Repr

/-- The state at provider mount: `token` is read from storage,
`currentUser` starts `null`, `loading` starts `true`. -/
def mountState (storedToken : Option String) : SessionState :=
  { storedToken := storedToken, token := storedToken, currentUser := none,
    loading := true, apiAuthHeader := none }

/-- `validateToken` from `AuthContext`, applied to the outcome of the
`GET /auth/me` call: on success the fetched user becomes current; on
failure the stored token, token, user and header are all cleared; either
way `loading` ends false (the `finally` clause). -/
def validateToken (s : SessionState) (resp : Except String User) : SessionState :=
  let s1 := { s with apiAuthHeader := s.token.map (fun t => "Bearer " ++ t) }
  match resp with
  | Except.ok u => { s1 with currentUser := some u, loading := false }
  | Except.error _ =>
      { s1 with storedToken := none, token := none, currentUser := none,
                loading := false, apiAuthHeader := none }

/-- The startup `useEffect`: with a stored token present it runs
`validateToken`; otherwise it only sets `loading` to false. -/
def initSession (storedToken : Option String) (resp : Except String User) : SessionState :=
  match storedToken with
  | some _ => validateToken (mountState storedToken) resp
  | none => { mountState storedToken with loading := false }

/-- The value `login` returns: `{ success: true }` or
`{ success: false, error: <detail or 'Login failed'> }`. -/
structure LoginResult where
  success : Bool
  error : Option String
deriving DecidableEq, Repr

/-- `login` from `AuthContext`, applied to the outcome of the
`POST /auth/login` call (success carries `{access_token, user}`, failure
carries the optional `error.response?.data?.detail`): on success the token
is stored, set current, set as the API header and the user becomes
current; on failure the state is left untouched and a structured failure
with a human-readable message is returned. -/
def login (s : SessionState) (resp : Except (Option String) (String × User)) :
    SessionState × LoginResult :=
  match resp with
  | Except.ok (access_token, user) =>
      ({ s with storedToken := some access_token, token := some access_token,
                apiAuthHeader := some ("Bearer " ++ access_token),
                currentUser := some user },
       { success := true, error := none })
  | Except.error detail =>
      (s, { success := false, error := some (detail.getD "Login failed") })

/-- `logout` from `AuthContext`: the server call's outcome (`serverOk`) is
caught and ignored; the `finally` clause unconditionally clears stored
token, token, user and header. -/
def logout (s : SessionState) (_serverOk : Bool) : SessionState :=
  { s with storedToken := none, token := none, currentUser := none,
           apiAuthHeader := none }

/-- The value `updateProfile` returns: `{ success: true }` or
`{ success: false, error: <detail or 'Profile update failed'> }`. -/
structure ProfileResult where
  success : Bool
  error : Option String
deriving DecidableEq, Repr

/-- `updateProfile` from `AuthContext`, applied to the outcome of the
`PUT /auth/profile` call: on success the returned user replaces
`currentUser` — with no token check — and success is reported; on failure
the state is left untouched and a structured failure is returned. -/
def updateProfile (s : SessionState) (resp : Except (Option String) User) :
    SessionState × ProfileResult :=
  match resp with
  | Except.ok user =>
      ({ s with currentUser := some user }, { success := true, error := none })
  | Except.error detail =>
      (s, { success := false, error := some (detail.getD "Profile update failed") })

/-- Session states reachable from provider startup through the
`AuthContext` operations (`validateToken` only runs when a token is
present, per the startup `useEffect` guard; `updateProfile` carries no
guard, exactly as in the source). -/
inductive Reachable : SessionState → Prop where
  | boot (st : Option String) (resp : Except String User) :
      Reachable (initSession st resp)
  | validateStep (s : SessionState) (resp : Except String User) :
      Reachable s → s.token.isSome = true → Reachable (validateToken s resp)
  | loginStep (s : SessionState) (resp : Except (Option String) (String × User)) :
      Reachable s → Reachable (login s resp).1
  | logoutStep (s : SessionState) (serverOk : Bool) :
      Reachable s → Reachable (logout s serverOk)
  | profileStep (s : SessionState) (resp : Except (Option String) User) :
      Reachable s → Reachable (updateProfile s resp).1

/-- The state reached by booting with no stored token and then receiving
a successful profile-update response while logged out. -/
def profileUpdateLoggedOut : SessionState :=
  (updateProfile (initSession none (Except.error "no stored token"))
    (Except.ok viewerNoFacilities)).1

/-- Claim C5 counterexample: `updateProfile` sets `currentUser` on a
successful response without any token check, so the logged-out boot state
followed by a successful profile update is reachable yet has
`currentUser` present and `token` absent — refuting the claimed invariant
on the unrestricted machine. -/
theorem session_invariant_counterexample :
    Reachable profileUpdateLoggedOut
    ∧ profileUpdateLoggedOut.currentUser = some viewerNoFacilities
    ∧ profileUpdateLoggedOut.token = none
    ∧ ¬(∀ s, Reachable s → s.currentUser.isSome = true → s.token.isSome = true) := by
  have hr : Reachable profileUpdateLoggedOut :=
    Reachable.profileStep _ _ (Reachable.boot none (Except.error "no stored token"))
  exact ⟨hr, by decide, by decide, fun h => absurd (h _ hr (by decide)) (by decide)⟩

/-- Session states reachable through the same operations when a profile
update succeeds only while a token is present (an unauthenticated
`PUT /auth/profile` against a well-behaved backend is rejected, so its
success outcome cannot arrive in a logged-out state). -/
inductive ReachableAuthed : SessionState → Prop where
  | boot (st : Option String) (resp : Except String User) :
      ReachableAuthed (initSession st resp)
  | validateStep (s : SessionState) (resp : Except String User) :
      ReachableAuthed s → s.token.isSome = true → ReachableAuthed (validateToken s resp)
  | loginStep (s : SessionState) (resp : Except (Option String) (String × User)) :
      ReachableAuthed s → ReachableAuthed (login s resp).1
  | logoutStep (s : SessionState) (serverOk : Bool) :
      ReachableAuthed s → ReachableAuthed (logout s serverOk)
  | profileStep (s : SessionState) (resp : Except (Option String) User) :
      ReachableAuthed s → s.token.isSome = true →
        ReachableAuthed (updateProfile s resp).1

/-- Claim C5 amended: in every session state reachable in a run where
profile updates succeed only while a token is present (`updateProfile` is
the one mutator of `currentUser` with no token check of its own; every
other operation preserves the implication unconditionally), a present
`currentUser` implies a present `token`; and — unconditionally — right
after startup initialization resolves, `loading` is false and exactly one
of {`currentUser` set together with a token, both absent} holds. -/
theorem session_invariant_amended :
    (∀ s, ReachableAuthed s → s.currentUser.isSome = true → s.token.isSome = true)
    ∧ (∀ st resp,
        (initSession st resp).loading = false
        ∧ (((initSession st resp).currentUser.isSome = true
             ∧ (initSession st resp).token.isSome = true
             ∧ ¬((initSession st resp).currentUser = none
                 ∧ (initSession st resp).token = none))
           ∨ ((initSession st resp).currentUser = none
              ∧ (initSession st resp).token = none
              ∧ ¬((initSession st resp).currentUser.isSome = true
                  ∧ (initSession st resp).token.isSome = true)))) := by
  constructor
  · intro s hs
    induction hs with
    | boot st resp =>
      cases st with
      | none => cases resp <;> simp [initSession, mountState]
      | some t => cases resp <;> simp [initSession, mountState, validateToken]
    | validateStep s resp _ htok ih =>
      cases resp with
      | ok u => intro _; simpa [validateToken] using htok
      | error e => simp [validateToken]
    | loginStep s resp _ ih =>
      cases resp with
      | ok p => simp [login]
      | error d => simpa [login] using ih
    | logoutStep s serverOk _ ih => simp [logout]
    | profileStep s resp _ htok ih =>
      cases resp with
      | ok u => intro _; simpa [updateProfile] using htok
      | error d => simpa [updateProfile] using ih
  · intro st resp
    cases st with
    | none => cases resp <;> simp [initSession, mountState]
    | some t =>
      cases resp with
      | ok u => simp [initSession, mountState, validateToken]
      | error e => simp [initSession, mountState, validateToken]

/-- Claim C5 witness: the amended invariant applied to the state reached
by a successful startup validation with a concrete token and user. -/
theorem session_invariant_amended_witness :
    (initSession (some "t1") (Except.ok viewerNoFacilities)).token.isSome = true :=
  session_invariant_amended.1 _
    (ReachableAuthed.boot (some "t1") (Except.ok viewerNoFacilities)) (by decide)

/-- Claim C6: `login` on success stores the returned token, sets it and
the returned user as current session state and reports success; on
failure it returns a structured failure carrying an error-message string
and leaves the prior session state (token, user, stored token) unchanged. -/
theorem login_contract (s : SessionState) :
    (∀ tok u,
       (login s (Except.ok (tok, u))).1.storedToken = some tok
       ∧ (login s (Except.ok (tok, u))).1.token = some tok
       ∧ (login s (Except.ok (tok, u))).1.currentUser = some u
       ∧ (login s (Except.ok (tok, u))).2.success = true)
    ∧ (∀ detail,
       (login s (Except.error detail)).2.success = false
       ∧ (∃ msg, (login s (Except.error detail)).2.error = some msg)
       ∧ (login s (Except.error detail)).1 = s) := by
  constructor
  · intro tok u
    simp [login]
  · intro detail
    simp [login]

/-- Claim C7: `logout` clears the token, the stored token and
`currentUser` whether or not the server-side invalidation succeeds. -/
theorem logout_contract (s : SessionState) (serverOk : Bool) :
    (logout s serverOk).token = none
    ∧ (logout s serverOk).storedToken = none
    ∧ (logout s serverOk).currentUser = none := by
  simp [logout]

/-- An outgoing request's mutable config, reduced to the header the
interceptor touches. -/
structure RequestConfig where
  authorization : Option String
deriving DecidableEq, Repr

/-- The request interceptor from `tailingsIQApi.js`: reads the stored
token and, when present, sets `config.headers.Authorization` to
`Bearer <token>`. -/
def requestInterceptor (storedToken : Option String) (config : RequestConfig) :
    RequestConfig :=
  match storedToken with
  | some t => { config with authorization := some ("Bearer " ++ t) }
  | none => config

/-- The process-wide client state the response interceptor touches:
the stored token and the window location. -/
structure ClientState where
  storedToken : Option String
  location : String
deriving DecidableEq, Repr

/-- The response-error interceptor from `tailingsIQApi.js`: on a response
with status 401 it removes the stored token and navigates to `/login`
(`status = none` embeds a transport failure with no response). -/
def responseErrorInterceptor (st : ClientState) (status : Option Nat) : ClientState :=
  if status = some 401 then { st with storedToken := none, location := "/login" }
  else st

/-- Claim C8: for every request, a present stored token is attached as a
bearer credential; and every 401 response clears the stored token and
forces navigation to the login entry point. -/
theorem interceptor_contract :
    (∀ tok config,
       (requestInterceptor (some tok) config).authorization = some ("Bearer " ++ tok))
    ∧ (∀ config, requestInterceptor none config = config)
    ∧ (∀ st, (responseErrorInterceptor st (some 401)).storedToken = none
        ∧ (responseErrorInterceptor st (some 401)).location = "/login") := by
  refine ⟨fun tok config => rfl, fun config => rfl, fun st => ?_⟩
  simp [responseErrorInterceptor]

/-- `refreshToken` from the `useAuth` hook in `src/unnamed/part_000`
(lines 265-273): it posts `/auth/refresh` through the API client and
returns `response.data` to its caller (re-raising on failure after
recording a hook-local error message). It performs no session-state
write — no `setToken`, no storage write, no `setCurrentUser` — so the
resolution of an in-flight refresh, successful or not, leaves the session
state unchanged; the returned data (`_newToken`) goes to the caller only. -/
def refreshResolveOk (s : SessionState) (_newToken : String) : SessionState := s

/-- A completion event on the single-threaded event loop: the `finally`
clause of `logout` running, or an in-flight refresh resolving. -/
inductive AuthEvent where
  | logoutDone (serverOk : Bool)
  | refreshOk (newToken : String)
  | refreshFailed
deriving DecidableEq, Repr

/-- Dispatch of one completion event on the session state. -/
def applyEvent (s : SessionState) : AuthEvent → SessionState
  | AuthEvent.logoutDone ok => logout s ok
  | AuthEvent.refreshOk t => refreshResolveOk s t
  | AuthEvent.refreshFailed => s

/-- Run a trace of completion events in order. -/
def runEvents (s : SessionState) (evs : List AuthEvent) : SessionState :=
  evs.foldl applyEvent s

/-- A session state with no token, no stored token and no current user. -/
def loggedOut (s : SessionState) : Prop :=
  s.token = none ∧ s.currentUser = none ∧ s.storedToken = none

/-- Every completion event preserves the logged-out state: a later logout
keeps it, and a refresh resolution — successful or failed — writes no
session state at all. -/
theorem loggedOut_applyEvent (s : SessionState) (e : AuthEvent) (h : loggedOut s) :
    loggedOut (applyEvent s e) := by
  obtain ⟨ht, hu, hs⟩ := h
  cases e with
  | logoutDone ok => exact ⟨rfl, rfl, rfl⟩
  | refreshOk t => exact ⟨ht, hu, hs⟩
  | refreshFailed => exact ⟨ht, hu, hs⟩

/-- A trace of completion events preserves the logged-out state. -/
theorem loggedOut_runEvents (evs : List AuthEvent) (s : SessionState)
    (h : loggedOut s) : loggedOut (runEvents s evs) := by
  induction evs generalizing s with
  | nil => exact h
  | cons e rest ih => exact ih (applyEvent s e) (loggedOut_applyEvent s e h)

/-- Claim C9: in every interleaving where `logout` completes while a
refresh is in flight — any events before the logout, any mix of refresh
resolutions (successful or failed) and further logouts after it — the
final session state is logged out: the repository's `refreshToken` only
returns its data to the caller and performs no session-state write, so a
refresh success resolving after the logout re-establishes neither token
nor user. -/
theorem logout_authoritative (s : SessionState) (pre post : List AuthEvent)
    (serverOk : Bool) :
    loggedOut (runEvents s (pre ++ AuthEvent.logoutDone serverOk :: post)) := by
  have hsplit : runEvents s (pre ++ AuthEvent.logoutDone serverOk :: post)
      = runEvents (applyEvent (runEvents s pre) (AuthEvent.logoutDone serverOk)) post := by
    simp [runEvents, List.foldl_append]
  rw [hsplit]
  exact loggedOut_runEvents post _ ⟨rfl, rfl, rfl⟩

/-- The outcome of rendering a `ProtectedRoute` from `App.jsx`. -/
inductive RouteOutcome where
  | spinner
  | redirectLogin
  | redirectDashboard
  | render
deriving DecidableEq, Repr

/-- `ProtectedRoute` from `App.jsx`: while loading it shows a spinner;
with no `currentUser` it redirects to `/login`; with a required permission
the current user's role fails, it redirects to `/dashboard`; otherwise it
renders its children. -/
def protectedRoute (loading : Bool) (currentUser : Option User)
    (requiredPermission : Option String) : RouteOutcome :=
  if loading then RouteOutcome.spinner
  else
    match currentUser with
    | none => RouteOutcome.redirectLogin
    | some _ =>
      match requiredPermission with
      | some p =>
          if hasPermission (deriveRole currentUser) p then RouteOutcome.render
          else RouteOutcome.redirectDashboard
      | none => RouteOutcome.render

/-- Claim C10: `canViewDocuments` — required by the `/documents` route
guard and the sidebar item — is not a key of `PERMISSIONS`, so
`hasPermission` rejects it for every role (including `super_admin`), and
the `/documents` route redirects every authenticated user to
`/dashboard`. -/
theorem documents_route_unreachable :
    PERMISSIONS.lookup "canViewDocuments" = none
    ∧ (∀ r : Option String, hasPermission r "canViewDocuments" = false)
    ∧ hasPermission (some "super_admin") "canViewDocuments" = false
    ∧ (∀ u : User, protectedRoute false (some u) (some "canViewDocuments")
        = RouteOutcome.redirectDashboard) := by
  refine ⟨by decide, ?_, by decide, ?_⟩
  · intro r
    cases r <;> rfl
  · intro u
    have h : hasPermission (deriveRole (some u)) "canViewDocuments" = false := by
      cases hd : deriveRole (some u) <;> rfl
    simp [protectedRoute, h]

end TailingsIQ
